import Mathlib

/-!
Verification of the Practice Session Engine of `src/app/pyq_retriever_service.py`
(class `PYQRetrieverService`).

Embedding conventions:
* A Python `dict` keyed by strings is an insertion-ordered association list
  (`dget` models `d.get(k)`, `dset` models `d[k] = v`).
* The durable store (Supabase) is abstracted at exactly the points where the code
  consults it: the `questions` table lookup performed by `_get_question_with_metadata`
  becomes a parameter `qdb : String -> Option Question` (`none` models both an absent
  row and a raised-then-caught exception); the insert performed by `create_session`
  becomes a parameter `durable : Option String` (`some dbid` models a successful insert
  returning row id `dbid`, `none` models a failing or absent client).  Session reads,
  response storage and session-stat updates are modelled on the deterministic fallback
  path (`self.fallback_sessions`), which is where the code keeps responses and session
  question lists in every mode.
* Nondeterministic inputs (`uuid.uuid4()`, `datetime.now().isoformat()`) are threaded
  in as explicit string parameters.
* Python floats produced by `/` and `* 100` are modelled as rationals; `datetime`
  values are modelled by `PyDateTime` (an epoch-seconds integer plus a
  timezone-awareness flag), and the `TypeError` thrown by subtracting a naive from an
  aware datetime is modelled by `dtSub` returning `none`.
* Dict keys that a given writer never sets (and whose readers use `.get` with a
  default) are modelled by `Option` fields (`none` = key absent) when the default is
  dynamic, and by the default value itself when every read site uses the same literal
  default.
-/

namespace PYQRetrieverService

/-- Python `dict.get k`: first binding for `k` in an insertion-ordered list. -/
def dget {β : Type} : List (String × β) → String → Option β
  | [], _ => none
  | (k0, v0) :: rest, k => if k0 = k then some v0 else dget rest k

/-- Python `d[k] = v`: replace the binding in place if the key exists, else append. -/
def dset {β : Type} : List (String × β) → String → β → List (String × β)
  | [], k, v => [(k, v)]
  | (k0, v0) :: rest, k, v => if k0 = k then (k, v) :: rest else (k0, v0) :: dset rest k v

/-- The key list of a dict. -/
def dkeys {β : Type} (m : List (String × β)) : List String := m.map Prod.fst

/-- Number of bindings carrying key `k` (1 for a genuine dict). -/
def countKey {β : Type} (m : List (String × β)) (k : String) : Nat :=
  (m.filter (fun p => p.1 == k)).length

/-- One entry of a question's `pyq_metadata` list. -/
structure PYQMetadata where
  solution : String := ""
deriving Repr, DecidableEq

/-- A row of the `questions` table, with its attached `pyq_metadata`. -/
structure Question where
  id : String
  correct_answer : String := ""
  pyq_metadata : List PYQMetadata := []
deriving Repr, DecidableEq

/-- The response record built by `submit_answer` (plus the `id` added on storage). -/
structure ResponseRecord where
  session_id : String
  question_id : String
  user_answer : String
  is_correct : Bool
  time_taken : Nat
  response_time : String
  id : String
deriving Repr, DecidableEq

/-- One entry of `self.fallback_sessions`.  Fields that some writers leave absent are
`Option`-valued (`none` = key missing from the Python dict) when a reader's `.get`
default is dynamic; counters read via `.get(_, 0)` are plain `Nat` defaulting to 0. -/
structure FallbackSession where
  id : String := ""
  user_id : String := ""
  session_name : Option String := none
  question_ids : List String := []
  question_bank : List (String × Question) := []
  responses : List (String × ResponseRecord) := []
  current_question_index : Nat := 0
  total_questions : Option Nat := none
  questions_answered : Nat := 0
  questions_correct : Nat := 0
  questions_incorrect : Nat := 0
  questions_skipped : Nat := 0
  is_active : Bool := false
  status : Option String := none
  start_time : Option String := none
  last_activity : String := ""
  time_limit : Option Nat := none
deriving Repr, DecidableEq

/-- The `self.fallback_sessions` map. -/
def SessionMap : Type := List (String × FallbackSession)

instance : DecidableEq SessionMap := by
  unfold SessionMap
  infer_instance

/-- Python `str.lower()` (ASCII fragment), character-wise lower-casing. -/
def pyLower (s : String) : String := ⟨s.data.map Char.toLower⟩

/-- Python `str.strip()`: drop whitespace from both ends. -/
def pyStrip (s : String) : String :=
  ⟨((s.data.dropWhile Char.isWhitespace).reverse.dropWhile Char.isWhitespace).reverse⟩

/-- The normalization `_check_answer` applies to each side: `.strip().lower()`. -/
def normalizeAnswer (s : String) : String := pyLower (pyStrip s)

/-- `_check_answer`: strip surrounding whitespace, lower-case, compare for equality. -/
def check_answer (correct_answer user_answer : String) : Bool :=
  normalizeAnswer correct_answer == normalizeAnswer user_answer

/-- A Python `datetime`: epoch seconds plus timezone-awareness flag. -/
structure PyDateTime where
  seconds : Int
  tzAware : Bool
deriving Repr, DecidableEq

/-- `datetime` subtraction: raises (`none`) when one side is aware and the other naive. -/
def dtSub (a b : PyDateTime) : Option Int :=
  if a.tzAware = b.tzAware then some (a.seconds - b.seconds) else none

/-- `_calculate_session_duration`: 0 for a missing/empty/unparseable start time;
otherwise `now` (UTC-aware when the start is aware, naive otherwise) minus the start,
with the `except` clause mapping a raising subtraction to 0. -/
def calculate_session_duration (parse : String → Option PyDateTime)
    (nowNaive nowUtc : PyDateTime) (start_time_str : Option String) : Int :=
  match start_time_str with
  | none => 0
  | some s =>
    if s = "" then 0
    else
      match parse s with
      | none => 0
      | some start_time =>
        let now := if start_time.tzAware then nowUtc else nowNaive
        match dtSub now start_time with
        | some d => d
        | none => 0

/-- Result of `create_session`.  `wroteDurable` records whether the durable-store
insert was performed (the code only reaches it with a nonempty question list and a
working client). -/
structure CreateResult where
  success : Bool
  error : Option String := none
  session_id : Option String := none
  total_questions : Nat := 0
  fallback : Bool := false
  wroteDurable : Bool := false
deriving Repr, DecidableEq

/-- The question-bank dict built by `create_session` ({q["id"]: q for q in questions}). -/
def bankOf (questions : List Question) : List (String × Question) :=
  questions.foldl (fun m q => dset m q.id q) []

/-- `create_session`: empty filter result fails before any store access; a successful
durable insert (`durable = some dbid`) stores only id / question_ids / question_bank in
the fallback; a failing durable insert synthesizes `freshSid` and persists the whole
session in the fallback. -/
def create_session (durable : Option String) (freshSid now : String) (st : SessionMap)
    (user_id session_name : String) (questions : List Question)
    (time_limit : Option Nat) : CreateResult × SessionMap :=
  if questions.isEmpty then
    ({ success := false, error := some "No questions found matching the specified filters" }, st)
  else
    let question_ids := questions.map (·.id)
    match durable with
    | some dbid =>
      ({ success := true, session_id := some dbid, total_questions := questions.length,
         wroteDurable := true },
       dset st dbid
         { id := dbid, question_ids := question_ids, question_bank := bankOf questions })
    | none =>
      ({ success := true, session_id := some freshSid, total_questions := questions.length,
         fallback := true },
       dset st freshSid
         { id := freshSid, user_id := user_id, session_name := some session_name,
           question_ids := question_ids, question_bank := bankOf questions,
           responses := [], current_question_index := 0,
           total_questions := some questions.length,
           questions_answered := 0, questions_correct := 0, questions_incorrect := 0,
           questions_skipped := 0, is_active := true, status := some "active",
           start_time := some now, last_activity := now, time_limit := time_limit })

/-- The `session_info` dict returned by `get_current_question`. -/
structure SessionInfo where
  session_id : String
  current_index : Nat
  total_questions : Nat
  questions_answered : Nat
  progress_percentage : Rat
deriving Repr, DecidableEq

/-- The `navigation` dict returned by `get_current_question`. -/
structure NavState where
  has_previous : Bool
  has_next : Bool
  is_last : Bool
deriving Repr, DecidableEq

/-- Result of `get_current_question`. -/
structure GetCurrentResult where
  success : Bool
  error : Option String := none
  session_completed : Bool := false
  question : Option Question := none
  session_info : Option SessionInfo := none
  previous_response : Option ResponseRecord := none
  navigation : Option NavState := none
  fallback : Bool := false
deriving Repr, DecidableEq

/-- `get_current_question` on the fallback path: the session and its question ids come
from `fallback_sessions`, but the question body is fetched by
`_get_question_with_metadata`, which only queries the durable `questions` table
(parameter `qdb`) and never the session's `question_bank`. -/
def get_current_question (qdb : String → Option Question) (st : SessionMap)
    (session_id now : String) : GetCurrentResult × SessionMap :=
  match dget st session_id with
  | none => ({ success := false, error := some "Session not found" }, st)
  | some s =>
    let question_ids := s.question_ids
    if question_ids.isEmpty then
      ({ success := false, error := some "No questions found for this session" }, st)
    else
      let current_index := s.current_question_index
      if question_ids.length ≤ current_index then
        ({ success := false, error := some "No more questions in this session",
           session_completed := true }, st)
      else
        let current_question_id := question_ids.getD current_index ""
        match qdb current_question_id with
        | none => ({ success := false, error := some "Question not found" }, st)
        | some question =>
          let previous_response := dget s.responses current_question_id
          ({ success := true, question := some question,
             session_info := some
               { session_id := session_id, current_index := current_index,
                 total_questions := question_ids.length,
                 questions_answered := s.questions_answered,
                 progress_percentage :=
                   (current_index : Rat) / (question_ids.length : Rat) * 100 },
             previous_response := previous_response,
             navigation := some
               { has_previous := decide (0 < current_index),
                 has_next := decide (current_index < question_ids.length - 1),
                 is_last := decide (current_index = question_ids.length - 1) },
             fallback := true },
           dset st session_id { s with last_activity := now })

/-- Result of `submit_answer`. -/
structure SubmitResult where
  success : Bool
  error : Option String := none
  is_correct : Bool := false
  correct_answer : Option String := none
  explanation : String := ""
  response_id : Option String := none
  fallback : Bool := false
deriving Repr, DecidableEq

/-- `(question.get("pyq_metadata") or [{}])[0].get("solution", "")`. -/
def firstSolution (q : Question) : String :=
  match q.pyq_metadata with
  | [] => ""
  | m :: _ => m.solution

/-- The minimal fallback-session dict `submit_answer` creates for an unknown id:
only `id`, `question_ids`, `question_bank` and `responses` are present. -/
def emptySubmitSession (session_id : String) : FallbackSession :=
  { id := session_id }

/-- Question resolution at the top of `submit_answer`: the durable lookup first, then,
when it yields nothing and the session is in the fallback map, the session's own
`question_bank`. -/
def resolveQuestion (qdb : String → Option Question) (st : SessionMap)
    (session_id question_id : String) : Option Question :=
  match qdb question_id, dget st session_id with
  | none, some s => dget s.question_bank question_id
  | q, _ => q

/-- `if session_id not in self.fallback_sessions: self.fallback_sessions[session_id] = …`. -/
def ensureSession (st : SessionMap) (session_id : String) : SessionMap :=
  match dget st session_id with
  | some _ => st
  | none => dset st session_id (emptySubmitSession session_id)

/-- `existing.get("id") if existing else str(uuid.uuid4())`. -/
def submitResponseId (s : FallbackSession) (question_id fresh : String) : String :=
  match dget s.responses question_id with
  | some r => r.id
  | none => fresh

/-- `sum(1 for r in responses.values() if r["is_correct"])`. -/
def countCorrect (rs : List (String × ResponseRecord)) : Nat :=
  (rs.filter (fun p => p.2.is_correct)).length

/-- `sum(1 for r in responses.values() if not r["is_correct"])`. -/
def countIncorrect (rs : List (String × ResponseRecord)) : Nat :=
  (rs.filter (fun p => !p.2.is_correct)).length

/-- Store a response under its question id and recompute the session counters from the
full response set (`submit_answer` lines: `responses[question_id] = …` and the three
recount assignments, plus the `last_activity` touch). -/
def updSession (s : FallbackSession) (question_id : String) (resp : ResponseRecord)
    (now : String) : FallbackSession :=
  let responses := dset s.responses question_id resp
  { s with responses := responses,
           questions_answered := responses.length,
           questions_correct := countCorrect responses,
           questions_incorrect := countIncorrect responses,
           last_activity := now }

/-- The response record `submit_answer` builds, with the preserved-or-fresh id. -/
def mkResp (session_id question_id user_answer : String) (is_correct : Bool)
    (time_taken : Nat) (response_time response_id : String) : ResponseRecord :=
  { session_id := session_id, question_id := question_id, user_answer := user_answer,
    is_correct := is_correct, time_taken := time_taken, response_time := response_time,
    id := response_id }

/-- The success branch of `submit_answer` once a question has been resolved. -/
def recordSubmission (q : Question) (fresh now : String) (st : SessionMap)
    (session_id question_id user_answer : String) (time_taken : Nat) :
    SubmitResult × SessionMap :=
  let is_correct := check_answer q.correct_answer user_answer
  let st1 := ensureSession st session_id
  let s := (dget st1 session_id).getD (emptySubmitSession session_id)
  let response_id := submitResponseId s question_id fresh
  ({ success := true, is_correct := is_correct,
     correct_answer := some q.correct_answer, explanation := firstSolution q,
     response_id := some response_id, fallback := true },
   dset st1 session_id
     (updSession s question_id
       (mkResp session_id question_id user_answer is_correct time_taken now response_id)
       now))

/-- `submit_answer`: resolve the question (durable lookup, else the session's fallback
question bank), grade it, store the response idempotently in the fallback session
(creating a minimal session entry when the id is unknown), and recount the counters. -/
def submit_answer (qdb : String → Option Question) (fresh now : String)
    (st : SessionMap) (session_id question_id user_answer : String)
    (time_taken : Nat) : SubmitResult × SessionMap :=
  match resolveQuestion qdb st session_id question_id with
  | none => ({ success := false, error := some "Question not found" }, st)
  | some q => recordSubmission q fresh now st session_id question_id user_answer time_taken

/-- Result of `navigate_to_question` / `jump_to_question`. -/
structure NavResult where
  success : Bool
  error : Option String := none
  current_index : Option Int := none
  fallback : Bool := false
deriving Repr, DecidableEq

/-- The success tail of both navigation operations on the fallback path: persist the
new cursor and touch `last_activity`. -/
def applyNav (st : SessionMap) (session_id : String) (s : FallbackSession) (i : Nat)
    (now : String) : NavResult × SessionMap :=
  ({ success := true, current_index := some (i : Int), fallback := true },
   dset st session_id { s with current_question_index := i, last_activity := now })

/-- `navigate_to_question` on the fallback path.  `next` is refused when
`current_index >= len(question_ids) - 1`, `previous` when `current_index <= 0`
(the cursor is a natural number, so `<= 0` is `= 0`); any other direction string is
invalid. -/
def navigate_to_question (st : SessionMap) (session_id direction now : String) :
    NavResult × SessionMap :=
  match dget st session_id with
  | none => ({ success := false, error := some "Session not found" }, st)
  | some s =>
    if s.question_ids.isEmpty then
      ({ success := false, error := some "No questions found for this session" }, st)
    else if direction = "next" then
      if s.question_ids.length - 1 ≤ s.current_question_index then
        ({ success := false, error := some "Cannot move beyond the last question" }, st)
      else applyNav st session_id s (s.current_question_index + 1) now
    else if direction = "previous" then
      if s.current_question_index = 0 then
        ({ success := false, error := some "Cannot move before the first question" }, st)
      else applyNav st session_id s (s.current_question_index - 1) now
    else ({ success := false, error := some "Invalid navigation direction" }, st)

/-- `jump_to_question` on the fallback path.  The target index is a Python `int`, so it
is modelled as `Int`; it is refused outside `[0, len(question_ids))`. -/
def jump_to_question (st : SessionMap) (session_id : String) (question_index : Int)
    (now : String) : NavResult × SessionMap :=
  match dget st session_id with
  | none => ({ success := false, error := some "Session not found" }, st)
  | some s =>
    if s.question_ids.isEmpty then
      ({ success := false, error := some "No questions found for this session" }, st)
    else if question_index < 0 ∨ (s.question_ids.length : Int) ≤ question_index then
      ({ success := false, error := some "Invalid question index" }, st)
    else
      ({ success := true, current_index := some question_index, fallback := true },
       dset st session_id
         { s with current_question_index := question_index.toNat, last_activity := now })

/-- Per-index entry of the `question_status` map built by `get_session_progress`. -/
inductive QuestionStatus where
  | not_attempted
  | correct
  | incorrect
deriving Repr, DecidableEq

/-- Result of `get_session_progress` (flattened `progress` / `time_stats` dicts). -/
structure ProgressResult where
  success : Bool
  error : Option String := none
  session_id : String := ""
  session_name : Option String := none
  current_question : Nat := 0
  total_questions : Nat := 0
  questions_answered : Nat := 0
  questions_correct : Nat := 0
  questions_incorrect : Nat := 0
  questions_remaining : Int := 0
  progress_percentage : Rat := 0
  accuracy_percentage : Rat := 0
  total_time_seconds : Nat := 0
  average_time_per_question : Rat := 0
  session_duration : Int := 0
  question_status : List QuestionStatus := []
  is_completed : Bool := false
  fallback : Bool := false
deriving Repr, DecidableEq

/-- `get_session_progress` on the fallback path: responses always come from the
fallback store; `total_questions` falls back to `len(question_ids)` when the session
dict has no such key; all derived metrics are recomputed from the response list. -/
def get_session_progress (parse : String → Option PyDateTime)
    (nowNaive nowUtc : PyDateTime) (st : SessionMap) (session_id : String) :
    ProgressResult :=
  match dget st session_id with
  | none => { success := false, error := some "Session not found" }
  | some s =>
    let responses := s.responses.map (·.2)
    let question_ids := s.question_ids
    let total_questions := s.total_questions.getD question_ids.length
    let questions_answered := responses.length
    let questions_correct := (responses.filter (·.is_correct)).length
    let questions_incorrect := (responses.filter (fun r => !r.is_correct)).length
    let total_time := (responses.map (·.time_taken)).sum
    { success := true, session_id := session_id, session_name := s.session_name,
      current_question := s.current_question_index + 1,
      total_questions := total_questions,
      questions_answered := questions_answered,
      questions_correct := questions_correct,
      questions_incorrect := questions_incorrect,
      questions_remaining := (total_questions : Int) - (questions_answered : Int),
      progress_percentage :=
        if total_questions = 0 then 0
        else (questions_answered : Rat) / (total_questions : Rat) * 100,
      accuracy_percentage :=
        if questions_answered = 0 then 0
        else (questions_correct : Rat) / (questions_answered : Rat) * 100,
      total_time_seconds := total_time,
      average_time_per_question :=
        if questions_answered = 0 then 0
        else (total_time : Rat) / (questions_answered : Rat),
      session_duration := calculate_session_duration parse nowNaive nowUtc s.start_time,
      question_status := question_ids.map (fun q_id =>
        match responses.find? (fun r => r.question_id == q_id) with
        | some r => if r.is_correct then QuestionStatus.correct else QuestionStatus.incorrect
        | none => QuestionStatus.not_attempted),
      is_completed := questions_answered == total_questions,
      fallback := true }

/-- Result of `pause_session` / `resume_session`. -/
structure SimpleResult where
  success : Bool
  message : Option String := none
  error : Option String := none
  fallback : Bool := false
deriving Repr, DecidableEq

/-- `pause_session` on the fallback path: flip `is_active` off, set the status to
`paused`, touch `last_activity`. -/
def pause_session (st : SessionMap) (session_id now : String) :
    SimpleResult × SessionMap :=
  match dget st session_id with
  | none => ({ success := false, error := some "Session not found" }, st)
  | some s =>
    ({ success := true, message := some "Session paused", fallback := true },
     dset st session_id
       { s with is_active := false, status := some "paused", last_activity := now })

/-- `resume_session` on the fallback path: flip `is_active` on, set the status to
`active`, touch `last_activity`. -/
def resume_session (st : SessionMap) (session_id now : String) :
    SimpleResult × SessionMap :=
  match dget st session_id with
  | none => ({ success := false, error := some "Session not found" }, st)
  | some s =>
    ({ success := true, message := some "Session resumed", fallback := true },
     dset st session_id
       { s with is_active := true, status := some "active", last_activity := now })

theorem dget_dset_self {β : Type} (m : List (String × β)) (k : String) (v : β) :
    dget (dset m k v) k = some v := by
  induction m with
  | nil => simp [dget, dset]
  | cons p rest ih =>
    obtain ⟨k0, v0⟩ := p
    by_cases h : k0 = k
    · simp [dget, dset, h]
    · simp [dget, dset, h, ih]

theorem dget_dset_ne {β : Type} (m : List (String × β)) (k k' : String) (v : β)
    (h : k' ≠ k) : dget (dset m k v) k' = dget m k' := by
  have h' : k ≠ k' := Ne.symm h
  induction m with
  | nil => simp [dget, dset, h']
  | cons p rest ih =>
    obtain ⟨k0, v0⟩ := p
    by_cases h0 : k0 = k
    · subst h0
      simp [dget, dset, h']
    · simp [dget, dset, h0, ih]

theorem mem_dkeys_dset {β : Type} (m : List (String × β)) (k x : String) (v : β)
    (hx : x ∈ dkeys (dset m k v)) : x ∈ dkeys m ∨ x = k := by
  induction m with
  | nil =>
    simp [dkeys, dset] at hx
    exact Or.inr hx
  | cons p rest ih =>
    obtain ⟨k0, v0⟩ := p
    by_cases h : k0 = k
    · subst h
      simp [dkeys, dset] at hx
      rcases hx with hx | hx
      · exact Or.inr hx
      · exact Or.inl (by simp [dkeys, hx])
    · simp [dkeys, dset, h] at hx
      rcases hx with hx | hx
      · exact Or.inl (by simp [dkeys, hx])
      · rcases ih (by simpa [dkeys] using hx) with h1 | h1
        · exact Or.inl (by simp [dkeys] at h1 ⊢; exact Or.inr h1)
        · exact Or.inr h1

theorem dkeys_nodup_dset {β : Type} (m : List (String × β)) (k : String) (v : β)
    (h : (dkeys m).Nodup) : (dkeys (dset m k v)).Nodup := by
  induction m with
  | nil => simp [dkeys, dset]
  | cons p rest ih =>
    obtain ⟨k0, v0⟩ := p
    simp only [dkeys, List.map_cons, List.nodup_cons] at h
    by_cases hk : k0 = k
    · have e : dkeys (dset ((k0, v0) :: rest) k v) = k :: dkeys rest := by
        simp [dkeys, dset, hk]
      rw [e, List.nodup_cons]
      refine ⟨?_, h.2⟩
      rw [← hk]
      simpa [dkeys] using h.1
    · have h1 : (dkeys (dset rest k v)).Nodup := ih h.2
      have h2 : k0 ∉ dkeys (dset rest k v) := by
        intro hmem
        rcases mem_dkeys_dset rest k k0 v hmem with hm | hm
        · exact h.1 (by simpa [dkeys] using hm)
        · exact hk hm
      have e : dkeys (dset ((k0, v0) :: rest) k v) = k0 :: dkeys (dset rest k v) := by
        simp [dkeys, dset, hk]
      rw [e, List.nodup_cons]
      exact ⟨h2, h1⟩

theorem filter_key_eq_nil {β : Type} (m : List (String × β)) (k : String)
    (h : k ∉ dkeys m) : m.filter (fun p => p.1 == k) = [] := by
  induction m with
  | nil => simp
  | cons p rest ih =>
    obtain ⟨k0, v0⟩ := p
    simp only [dkeys, List.map_cons, List.mem_cons] at h
    push_neg at h
    have hk : (k0 == k) = false := beq_eq_false_iff_ne.mpr (Ne.symm h.1)
    have ht := ih (by simpa [dkeys] using h.2)
    simp [List.filter_cons, hk, ht]

theorem countKey_dset_self {β : Type} (m : List (String × β)) (k : String) (v : β)
    (h : (dkeys m).Nodup) : countKey (dset m k v) k = 1 := by
  induction m with
  | nil => simp [countKey, dset, List.filter_cons]
  | cons p rest ih =>
    obtain ⟨k0, v0⟩ := p
    simp only [dkeys, List.map_cons, List.nodup_cons] at h
    by_cases hk : k0 = k
    · have hrest : rest.filter (fun p => p.1 == k) = [] := by
        refine filter_key_eq_nil rest k ?_
        rw [← hk]
        simpa [dkeys] using h.1
      simp [countKey, dset, hk, List.filter_cons, hrest]
    · have ht := ih h.2
      have hk' : (k0 == k) = false := beq_eq_false_iff_ne.mpr hk
      simpa [countKey, dset, hk, List.filter_cons, hk'] using ht

theorem dget_ensureSession (st : SessionMap) (session_id : String) :
    dget (ensureSession st session_id) session_id =
      some ((dget st session_id).getD (emptySubmitSession session_id)) := by
  unfold ensureSession
  cases h : dget st session_id with
  | none => simp [h, dget_dset_self]
  | some s => simp [h]

/-! Concrete fixtures used by witnesses and counterexamples. -/

def exQ1 : Question := { id := "q1", correct_answer := "a" }

def exQ2 : Question := { id := "q2", correct_answer := "b" }

/-- A durable `questions` table holding `q1` and `q2`. -/
def exQdb : String → Option Question :=
  fun i => if i = "q1" then some exQ1 else if i = "q2" then some exQ2 else none

/-- A durable `questions` table whose every lookup fails (degraded store). -/
def noQdb : String → Option Question := fun _ => none

/-- A `fromisoformat` oracle that rejects every string. -/
def exParse : String → Option PyDateTime := fun _ => none

def exNowN : PyDateTime := { seconds := 100, tzAware := false }

def exNowU : PyDateTime := { seconds := 200, tzAware := true }

/-- C3: grading normalizes both the stored key and the submitted answer by stripping
surrounding whitespace and case-folding and then compares for exact equality — this
comparison is the sole correctness rule: "  Paris " matches "paris", and any two
answers (or two stored keys) with the same normalization receive the same grade. -/
theorem C3_grading_normalization :
    check_answer "paris" "  Paris " = true ∧
    (∀ c u : String, check_answer c u = true ↔ normalizeAnswer c = normalizeAnswer u) ∧
    (∀ c u1 u2 : String, normalizeAnswer u1 = normalizeAnswer u2 →
      check_answer c u1 = check_answer c u2) ∧
    (∀ c1 c2 u : String, normalizeAnswer c1 = normalizeAnswer c2 →
      check_answer c1 u = check_answer c2 u) := by
  refine ⟨by decide, ?_, ?_, ?_⟩
  · intro c u
    simp [check_answer]
  · intro c u1 u2 h
    simp [check_answer, h]
  · intro c1 c2 u h
    simp [check_answer, h]

/-- Witness for C3 at concrete inputs: "A" and "a " grade identically against any key,
and "Paris" matches the stored key "paris". -/
theorem C3_grading_normalization_witness :
    check_answer "x" "A" = check_answer "x" "a " ∧ check_answer "Paris" "paris" = true := by
  refine ⟨C3_grading_normalization.2.2.1 "x" "A" "a " (by decide), ?_⟩
  exact (C3_grading_normalization.2.1 "Paris" "paris").mpr (by decide)

/-- C6: with an empty resolved question list, `create_session` fails with the
no-questions-matched error and creates nothing: the durable insert is never reached
and the fallback map is returned unchanged. -/
theorem C6_empty_filter_rejected (durable : Option String) (freshSid now : String)
    (st : SessionMap) (user_id session_name : String) (time_limit : Option Nat) :
    (create_session durable freshSid now st user_id session_name [] time_limit).1.success
      = false ∧
    (create_session durable freshSid now st user_id session_name [] time_limit).1.error
      = some "No questions found matching the specified filters" ∧
    (create_session durable freshSid now st user_id session_name [] time_limit).1.wroteDurable
      = false ∧
    (create_session durable freshSid now st user_id session_name [] time_limit).2 = st := by
  simp [create_session]

/-- C7: `_calculate_session_duration` is total: a missing or empty start time yields 0,
an unparseable one yields 0, and a parsed one is subtracted from a "now" chosen with
the same timezone-awareness, so the aware/naive subtraction (the only raising step)
always succeeds and the elapsed seconds are returned. -/
theorem C7_duration_never_throws (parse : String → Option PyDateTime)
    (nowNaive nowUtc : PyDateTime)
    (hn : nowNaive.tzAware = false) (hu : nowUtc.tzAware = true) :
    calculate_session_duration parse nowNaive nowUtc none = 0 ∧
    calculate_session_duration parse nowNaive nowUtc (some "") = 0 ∧
    (∀ s : String, s ≠ "" → parse s = none →
      calculate_session_duration parse nowNaive nowUtc (some s) = 0) ∧
    (∀ (s : String) (start_time : PyDateTime), s ≠ "" → parse s = some start_time →
      dtSub (if start_time.tzAware then nowUtc else nowNaive) start_time =
        some ((if start_time.tzAware then nowUtc else nowNaive).seconds
          - start_time.seconds) ∧
      calculate_session_duration parse nowNaive nowUtc (some s) =
        (if start_time.tzAware then nowUtc else nowNaive).seconds - start_time.seconds)
    := by
  refine ⟨rfl, rfl, ?_, ?_⟩
  · intro s hs hp
    simp [calculate_session_duration, hs, hp]
  · intro s t hs hp
    have hsub : dtSub (if t.tzAware then nowUtc else nowNaive) t =
        some ((if t.tzAware then nowUtc else nowNaive).seconds - t.seconds) := by
      cases ht : t.tzAware <;> simp [dtSub, ht, hn, hu]
    refine ⟨hsub, ?_⟩
    simp [calculate_session_duration, hs, hp, hsub]

/-- A `fromisoformat` oracle accepting exactly "aw" as an aware datetime. -/
def c7parse : String → Option PyDateTime :=
  fun s => if s = "aw" then some { seconds := 50, tzAware := true } else none

/-- Witness for C7: an aware start time is subtracted from the aware "now". -/
theorem C7_duration_never_throws_witness :
    exNowN.tzAware = false ∧ exNowU.tzAware = true ∧
    calculate_session_duration c7parse exNowN exNowU (some "aw") = 150 := by
  have h := (C7_duration_never_throws c7parse exNowN exNowU rfl rfl).2.2.2
    "aw" { seconds := 50, tzAware := true } (by decide) rfl
  refine ⟨rfl, rfl, ?_⟩
  rw [h.2]
  rfl

/-- C8: on an existing session, `pause_session` and `resume_session` mutate only
`is_active`, `status` and `last_activity` (the stored session is literally the old one
with those three fields replaced); `question_ids`, the cursor and the response map are
untouched, and every other session in the map is untouched. -/
theorem C8_pause_resume_frame (st : SessionMap) (sid now : String)
    (s : FallbackSession) (hs : dget st sid = some s) :
    (pause_session st sid now).1.success = true ∧
    (resume_session st sid now).1.success = true ∧
    dget (pause_session st sid now).2 sid =
      some { s with is_active := false, status := some "paused", last_activity := now } ∧
    dget (resume_session st sid now).2 sid =
      some { s with is_active := true, status := some "active", last_activity := now } ∧
    (∀ s1, dget (pause_session st sid now).2 sid = some s1 →
      s1.question_ids = s.question_ids ∧
      s1.current_question_index = s.current_question_index ∧
      s1.responses = s.responses) ∧
    (∀ s1, dget (resume_session st sid now).2 sid = some s1 →
      s1.question_ids = s.question_ids ∧
      s1.current_question_index = s.current_question_index ∧
      s1.responses = s.responses) ∧
    (∀ k, k ≠ sid → dget (pause_session st sid now).2 k = dget st k ∧
      dget (resume_session st sid now).2 k = dget st k) := by
  have hp : dget (pause_session st sid now).2 sid =
      some { s with is_active := false, status := some "paused", last_activity := now } := by
    simp [pause_session, hs, dget_dset_self]
  have hr : dget (resume_session st sid now).2 sid =
      some { s with is_active := true, status := some "active", last_activity := now } := by
    simp [resume_session, hs, dget_dset_self]
  refine ⟨by simp [pause_session, hs], by simp [resume_session, hs], hp, hr, ?_, ?_, ?_⟩
  · intro s1 h1
    rw [hp] at h1
    cases h1
    exact ⟨rfl, rfl, rfl⟩
  · intro s1 h1
    rw [hr] at h1
    cases h1
    exact ⟨rfl, rfl, rfl⟩
  · intro k hk
    constructor
    · simp [pause_session, hs, dget_dset_ne _ _ _ _ hk]
    · simp [resume_session, hs, dget_dset_ne _ _ _ _ hk]

/-- A one-session map used by the C8 witness. -/
def c8st : SessionMap :=
  [("s8", { id := "s8", question_ids := ["q1"], responses := [],
            current_question_index := 0, is_active := true,
            status := some "active" })]

/-- Witness for C8: pausing the concrete session `s8` keeps its question list. -/
theorem C8_pause_resume_frame_witness :
    (pause_session c8st "s8" "t1").1.success = true ∧
    dget (pause_session c8st "s8" "t1").2 "s8" =
      some { id := "s8", question_ids := ["q1"], responses := [],
             current_question_index := 0, is_active := false,
             status := some "paused", last_activity := "t1" } := by
  have h := C8_pause_resume_frame c8st "s8" "t1"
    { id := "s8", question_ids := ["q1"], responses := [],
      current_question_index := 0, is_active := true, status := some "active" } rfl
  exact ⟨h.1, h.2.2.1⟩

/-- C2: for a session with a nonempty question list, `next` at the last position and
`previous` at position 0 fail and leave the whole map (hence the cursor) unchanged;
`jump` outside `[0, len)` fails and leaves the map unchanged; and every successful
navigation (from a cursor respecting the documented invariant `cursor <= len`) lands
the cursor strictly inside `[0, len)` — the lower bound holds because the cursor is a
natural number. -/
theorem C2_navigation_bounds (st : SessionMap) (sid now : String)
    (s : FallbackSession) (hs : dget st sid = some s) (hne : s.question_ids ≠ []) :
    (s.current_question_index = s.question_ids.length - 1 →
      (navigate_to_question st sid "next" now).1.success = false ∧
      (navigate_to_question st sid "next" now).2 = st) ∧
    (s.current_question_index = 0 →
      (navigate_to_question st sid "previous" now).1.success = false ∧
      (navigate_to_question st sid "previous" now).2 = st) ∧
    (∀ i : Int, i < 0 ∨ (s.question_ids.length : Int) ≤ i →
      (jump_to_question st sid i now).1.success = false ∧
      (jump_to_question st sid i now).2 = st) ∧
    (∀ d : String, s.current_question_index ≤ s.question_ids.length →
      (navigate_to_question st sid d now).1.success = true →
      ∃ s1, dget (navigate_to_question st sid d now).2 sid = some s1 ∧
        s1.current_question_index < s.question_ids.length) ∧
    (∀ i : Int, (jump_to_question st sid i now).1.success = true →
      ∃ s1, dget (jump_to_question st sid i now).2 sid = some s1 ∧
        s1.current_question_index < s.question_ids.length) := by
  have hemp : s.question_ids.isEmpty = false := by
    simpa [List.isEmpty_iff] using hne
  have hlen : 0 < s.question_ids.length := List.length_pos.mpr hne
  refine ⟨?_, ?_, ?_, ?_, ?_⟩
  · intro hlast
    have hguard : s.question_ids.length - 1 ≤ s.current_question_index := by omega
    simp [navigate_to_question, hs, hemp, hguard]
  · intro h0
    simp [navigate_to_question, hs, hemp, h0]
  · intro i hi
    simp [jump_to_question, hs, hemp, hi]
  · intro d hle hsucc
    by_cases hd1 : d = "next"
    · subst hd1
      by_cases hguard : s.question_ids.length - 1 ≤ s.current_question_index
      · simp [navigate_to_question, hs, hemp, hguard] at hsucc
      · have hmain : dget (navigate_to_question st sid "next" now).2 sid =
            some { s with current_question_index := s.current_question_index + 1, last_activity := now } := by
          simp [navigate_to_question, hs, hemp, hguard, applyNav, dget_dset_self]
        refine ⟨_, hmain, ?_⟩
        show s.current_question_index + 1 < s.question_ids.length
        omega
    · by_cases hd2 : d = "previous"
      · subst hd2
        by_cases h0 : s.current_question_index = 0
        · simp [navigate_to_question, hs, hemp, h0] at hsucc
        · have hmain : dget (navigate_to_question st sid "previous" now).2 sid =
              some { s with current_question_index := s.current_question_index - 1, last_activity := now } := by
            simp [navigate_to_question, hs, hemp, h0, applyNav, dget_dset_self]
          refine ⟨_, hmain, ?_⟩
          show s.current_question_index - 1 < s.question_ids.length
          omega
      · simp [navigate_to_question, hs, hemp, hd1, hd2] at hsucc
  · intro i hsucc
    by_cases hi : i < 0 ∨ (s.question_ids.length : Int) ≤ i
    · simp [jump_to_question, hs, hemp, hi] at hsucc
    · have hcond : ¬ (i < 0 ∨ (s.question_ids.length : Int) ≤ i) := hi
      push_neg at hi
      have hmain : dget (jump_to_question st sid i now).2 sid =
          some { s with current_question_index := i.toNat, last_activity := now } := by
        simp [jump_to_question, hs, hemp, hcond, dget_dset_self]
      refine ⟨_, hmain, ?_⟩
      show i.toNat < s.question_ids.length
      omega

/-- A two-question session sitting at index 0, for the C2 witness. -/
def c2st : SessionMap :=
  [("s2", { id := "s2", question_ids := ["q1", "q2"], current_question_index := 0 })]

/-- Witness for C2: at index 0 of a two-question session, `previous` fails and leaves
the map unchanged, a jump to 5 fails, and `next` succeeds into bounds. -/
theorem C2_navigation_bounds_witness :
    (navigate_to_question c2st "s2" "previous" "t1").1.success = false ∧
    (navigate_to_question c2st "s2" "previous" "t1").2 = c2st ∧
    (jump_to_question c2st "s2" 5 "t1").1.success = false ∧
    (∃ s1, dget (navigate_to_question c2st "s2" "next" "t1").2 "s2" = some s1 ∧
      s1.current_question_index < 2) := by
  have h := C2_navigation_bounds c2st "s2" "t1"
    { id := "s2", question_ids := ["q1", "q2"], current_question_index := 0 }
    rfl (by decide)
  have hprev := h.2.1 rfl
  have hjump := h.2.2.1 5 (by decide)
  have hnext := h.2.2.2.1 "next" (by decide) (by decide)
  exact ⟨hprev.1, hprev.2, hjump.1, hnext⟩

theorem pct_nonneg (A T : Nat) :
    (0 : Rat) ≤ (if T = 0 then (0 : Rat) else (A : Rat) / (T : Rat) * 100) := by
  by_cases hT : T = 0
  · simp [hT]
  · simp only [hT, if_false]
    positivity

theorem pct_le_100 (A T : Nat) (h : A ≤ T) :
    (if T = 0 then (0 : Rat) else (A : Rat) / (T : Rat) * 100) ≤ 100 := by
  by_cases hT : T = 0
  · simp [hT]
  · have hT0 : (0 : Rat) < (T : Rat) := by exact_mod_cast Nat.pos_of_ne_zero hT
    have hA : (A : Rat) ≤ (T : Rat) := by exact_mod_cast h
    have hdiv : (A : Rat) / (T : Rat) ≤ 1 := (div_le_one hT0).mpr hA
    calc (if T = 0 then (0 : Rat) else (A : Rat) / (T : Rat) * 100)
        = (A : Rat) / (T : Rat) * 100 := by simp [hT]
      _ ≤ 1 * 100 := by nlinarith
      _ = 100 := by norm_num

/-- C4 (amended): `get_session_progress` reports
`questions_remaining = total - answered`,
`progress_percentage = answered/total*100` (0 when `total = 0`) and
`accuracy_percentage = correct/answered*100` (0 when `answered = 0`);
`progress_percentage` is always nonnegative, and it is at most 100 whenever
`questions_answered <= total_questions` — which `submit_answer` does not enforce, so
the upper bound is not unconditional (see the counterexample). -/
theorem C4_progress_formulas (parse : String → Option PyDateTime)
    (nowNaive nowUtc : PyDateTime) (st : SessionMap) (sid : String)
    (s : FallbackSession) (hs : dget st sid = some s)
    (r : ProgressResult) (hr : r = get_session_progress parse nowNaive nowUtc st sid) :
    r.success = true ∧
    r.questions_remaining = (r.total_questions : Int) - (r.questions_answered : Int) ∧
    r.progress_percentage = (if r.total_questions = 0 then (0 : Rat)
      else (r.questions_answered : Rat) / (r.total_questions : Rat) * 100) ∧
    r.accuracy_percentage = (if r.questions_answered = 0 then (0 : Rat)
      else (r.questions_correct : Rat) / (r.questions_answered : Rat) * 100) ∧
    (0 : Rat) ≤ r.progress_percentage ∧
    (r.questions_answered ≤ r.total_questions → r.progress_percentage ≤ 100) := by
  subst hr
  simp only [get_session_progress, hs]
  refine ⟨trivial, trivial, trivial, trivial, pct_nonneg _ _, fun h => pct_le_100 _ _ h⟩

/-- Witness for C4 at the concrete two-question session `c2st`: 0 answers out of 2. -/
theorem C4_progress_formulas_witness :
    (get_session_progress exParse exNowN exNowU c2st "s2").progress_percentage =
      (if (get_session_progress exParse exNowN exNowU c2st "s2").total_questions = 0
        then (0 : Rat)
        else ((get_session_progress exParse exNowN exNowU c2st "s2").questions_answered : Rat)
          / ((get_session_progress exParse exNowN exNowU c2st "s2").total_questions : Rat)
          * 100) ∧
    (get_session_progress exParse exNowN exNowU c2st "s2").progress_percentage ≤ 100 := by
  have h := C4_progress_formulas exParse exNowN exNowU c2st "s2"
    { id := "s2", question_ids := ["q1", "q2"], current_question_index := 0 } rfl
    (get_session_progress exParse exNowN exNowU c2st "s2") rfl
  exact ⟨h.2.2.1, h.2.2.2.2.2 (by decide)⟩

def c4stA : SessionMap := (create_session none "s4" "t0" [] "u" "n" [exQ1] none).2

def c4stB : SessionMap := (submit_answer exQdb "r1" "t1" c4stA "s4" "q2" "x" 1).2

def c4stC : SessionMap := (submit_answer exQdb "r2" "t2" c4stB "s4" "q1" "a" 1).2

def c4resp1 : ResponseRecord :=
  { session_id := "s4", question_id := "q2", user_answer := "x", is_correct := false,
    time_taken := 1, response_time := "t1", id := "r1" }

def c4resp2 : ResponseRecord :=
  { session_id := "s4", question_id := "q1", user_answer := "a", is_correct := true,
    time_taken := 1, response_time := "t2", id := "r2" }

/-- The session reached by creating a one-question fallback session for `q1` and then
submitting answers for `q2` (resolved from the durable questions table, not a member
of the session) and for `q1`. -/
def c4session : FallbackSession :=
  { id := "s4", user_id := "u", session_name := some "n", question_ids := ["q1"],
    question_bank := [("q1", exQ1)],
    responses := [("q2", c4resp1), ("q1", c4resp2)],
    current_question_index := 0, total_questions := some 1,
    questions_answered := 2, questions_correct := 1, questions_incorrect := 1,
    questions_skipped := 0, is_active := true, status := some "active",
    start_time := some "t0", last_activity := "t2", time_limit := none }

/-- Counterexample to C4 as stated: a reachable session (one question, but a recorded
response for a question outside its list — `submit_answer` never checks membership)
reports `progress_percentage = 200`, violating the claimed `[0, 100]` bound. -/
theorem C4_progress_counterexample :
    dget c4stC "s4" = some c4session ∧
    c4session.total_questions = some 1 ∧
    c4session.responses.length = 2 ∧
    (get_session_progress exParse exNowN exNowU c4stC "s4").progress_percentage = 200 ∧
    ¬ ((get_session_progress exParse exNowN exNowU c4stC "s4").progress_percentage
        ≤ 100) := by
  have h : dget c4stC "s4" = some c4session := by decide
  have h2 : (get_session_progress exParse exNowN exNowU c4stC "s4").progress_percentage
        = 200 ∧
      ¬ ((get_session_progress exParse exNowN exNowU c4stC "s4").progress_percentage
        ≤ 100) := by
    rw [get_session_progress, h]
    norm_num [c4session]
  exact ⟨h, rfl, by decide, h2.1, h2.2⟩

def c5create : CreateResult × SessionMap :=
  create_session none "s5" "t0" [] "u5" "n5" [exQ1] none

def c5st : SessionMap := c5create.2

def c5submit : SubmitResult × SessionMap :=
  submit_answer noQdb "r5" "t2" c5st "s5" "q1" "a" 4

/-- C5, evaluated at its failing input: with every durable-store call failing for the
whole session lifetime, `create_session` does succeed in fallback mode with the
synthesized id, and `submit_answer` / `get_session_progress` succeed against the
fallback with `fallback = true` — but `get_current_question` fails with
"Question not found", because `_get_question_with_metadata` consults only the durable
`questions` table and never the session's fallback `question_bank` (which
`submit_answer` does consult).  This contradicts the claimed all-operations-succeed
degraded lifetime. -/
theorem C5_degraded_lifetime_bug :
    c5create.1.success = true ∧ c5create.1.fallback = true ∧
    c5create.1.session_id = some "s5" ∧
    (dget c5st "s5").isSome = true ∧
    (get_current_question noQdb c5st "s5" "t1").1.success = false ∧
    (get_current_question noQdb c5st "s5" "t1").1.error = some "Question not found" ∧
    c5submit.1.success = true ∧ c5submit.1.fallback = true ∧
    (get_session_progress exParse exNowN exNowU c5submit.2 "s5").success = true ∧
    (get_session_progress exParse exNowN exNowU c5submit.2 "s5").fallback = true := by
  decide

/-- C9: `submit_answer` has no session-not-found failure: for a session id absent from
the fallback map, provided the durable question lookup resolves, it creates a fresh
minimal fallback entry with empty `question_ids` under that id, records the graded
response there (with the fresh response id), and succeeds; in general its only failure
is "Question not found". -/
theorem C9_submit_unknown_session (qdb : String → Option Question) (fresh now : String)
    (st : SessionMap) (sid qid ans : String) (t : Nat) (q : Question)
    (habsent : dget st sid = none) (hq : qdb qid = some q) :
    (submit_answer qdb fresh now st sid qid ans t).1.success = true ∧
    (submit_answer qdb fresh now st sid qid ans t).1.fallback = true ∧
    (submit_answer qdb fresh now st sid qid ans t).1.response_id = some fresh ∧
    (∃ s1, dget (submit_answer qdb fresh now st sid qid ans t).2 sid = some s1 ∧
      s1.question_ids = [] ∧
      dget s1.responses qid =
        some (mkResp sid qid ans (check_answer q.correct_answer ans) t now fresh) ∧
      s1.questions_answered = 1) ∧
    (∀ (qdb2 : String → Option Question) (f2 n2 : String) (st2 : SessionMap)
        (sid2 qid2 a2 : String) (t2 : Nat),
      (submit_answer qdb2 f2 n2 st2 sid2 qid2 a2 t2).1.success = true ∨
      (submit_answer qdb2 f2 n2 st2 sid2 qid2 a2 t2).1.error
        = some "Question not found") := by
  have hres : resolveQuestion qdb st sid qid = some q := by
    simp [resolveQuestion, hq]
  have hens : ensureSession st sid = dset st sid (emptySubmitSession sid) := by
    simp [ensureSession, habsent]
  refine ⟨?_, ?_, ?_, ?_, ?_⟩
  · simp [submit_answer, hres, recordSubmission]
  · simp [submit_answer, hres, recordSubmission]
  · simp [submit_answer, hres, recordSubmission, hens, dget_dset_self,
      emptySubmitSession, submitResponseId, dget]
  · refine ⟨updSession (emptySubmitSession sid) qid
      (mkResp sid qid ans (check_answer q.correct_answer ans) t now fresh) now,
      ?_, rfl, ?_, rfl⟩
    · simp [submit_answer, hres, recordSubmission, hens, dget_dset_self,
        emptySubmitSession, submitResponseId, dget, updSession, mkResp]
    · simp [updSession, emptySubmitSession, dset, dget, mkResp]
  · intro qdb2 f2 n2 st2 sid2 qid2 a2 t2
    cases hres2 : resolveQuestion qdb2 st2 sid2 qid2 with
    | none =>
      right
      simp [submit_answer, hres2]
    | some q2 =>
      left
      simp [submit_answer, hres2, recordSubmission]

/-- Witness for C9: submitting into an empty fallback map with a resolvable question
succeeds and uses the fresh response id. -/
theorem C9_submit_unknown_session_witness :
    (submit_answer exQdb "r9" "t9" [] "s9" "q1" "A" 7).1.success = true ∧
    (submit_answer exQdb "r9" "t9" [] "s9" "q1" "A" 7).1.response_id = some "r9" := by
  have h := C9_submit_unknown_session exQdb "r9" "t9" [] "s9" "q1" "A" 7 exQ1
    rfl (by decide)
  exact ⟨h.1, h.2.2.1⟩

def c10stA : SessionMap :=
  (create_session none "c10" "t0" [] "u" "n" [exQ1, exQ2] none).2

def c10st : SessionMap := (submit_answer exQdb "r1" "t1" c10stA "c10" "q1" "a" 3).2

/-- The session reached by creating a two-question fallback session and answering the
first question while the cursor still sits at index 0. -/
def c10session : FallbackSession :=
  { id := "c10", user_id := "u", session_name := some "n",
    question_ids := ["q1", "q2"], question_bank := [("q1", exQ1), ("q2", exQ2)],
    responses := [("q1",
      { session_id := "c10", question_id := "q1", user_answer := "a",
        is_correct := true, time_taken := 3, response_time := "t1", id := "r1" })],
    current_question_index := 0, total_questions := some 2,
    questions_answered := 1, questions_correct := 1, questions_incorrect := 0,
    questions_skipped := 0, is_active := true, status := some "active",
    start_time := some "t0", last_activity := "t1", time_limit := none }

/-- The cursor-ratio percentage `get_current_question` reports for `c10st`. -/
def c10cursor : Option Rat :=
  ((get_current_question exQdb c10st "c10" "t2").1.session_info).map
    SessionInfo.progress_percentage

/-- The answered-ratio percentage `get_session_progress` reports for `c10st`. -/
def c10prog : Rat :=
  (get_session_progress exParse exNowN exNowU c10st "c10").progress_percentage

/-- C10: the `progress_percentage` inside `get_current_question`'s `session_info` is
the cursor-position ratio `current_index / len(question_ids) * 100`, not the
answered-questions ratio used by `get_session_progress`; on the concrete session
`c10st` (one answer recorded, cursor at 0 of 2) the former is 0 while the latter is
50, so the two reports differ for the same session. -/
theorem C10_cursor_percentage (qdb : String → Option Question) (st : SessionMap)
    (sid now : String) (s : FallbackSession) (q : Question)
    (hs : dget st sid = some s) (hne : s.question_ids ≠ [])
    (hlt : s.current_question_index < s.question_ids.length)
    (hq : qdb (s.question_ids.getD s.current_question_index "") = some q) :
    ((get_current_question qdb st sid now).1.success = true ∧
     (get_current_question qdb st sid now).1.session_info =
       some { session_id := sid, current_index := s.current_question_index,
              total_questions := s.question_ids.length,
              questions_answered := s.questions_answered,
              progress_percentage := (s.current_question_index : Rat)
                / (s.question_ids.length : Rat) * 100 }) ∧
    (c10cursor = some 0 ∧ c10prog = 50 ∧ c10cursor ≠ some c10prog) := by
  have hemp : s.question_ids.isEmpty = false := by
    simpa [List.isEmpty_iff] using hne
  have hguard : ¬ (s.question_ids.length ≤ s.current_question_index) := by omega
  have hq' : qdb (s.question_ids[s.current_question_index]?.getD "") = some q := by
    simpa [List.getD] using hq
  have hcur : dget c10st "c10" = some c10session := by decide
  have hinfo : c10cursor = some ((0 : Rat) / 2 * 100) := by
    rw [c10cursor, get_current_question, hcur]
    norm_num [c10session, exQdb]
  have hprog : c10prog = 50 := by
    rw [c10prog, get_session_progress, hcur]
    norm_num [c10session]
  refine ⟨⟨?_, ?_⟩, ?_, hprog, ?_⟩
  · simp [get_current_question, hs, hemp, hguard, hq']
  · simp [get_current_question, hs, hemp, hguard, hq']
  · rw [hinfo]
    norm_num
  · rw [hinfo, hprog]
    intro hcontra
    have h0 : (0 : Rat) / 2 * 100 = 50 := Option.some.inj hcontra
    norm_num at h0

/-- Witness for C10: `get_current_question` succeeds on the concrete session and its
`session_info` carries the cursor ratio 0. -/
theorem C10_cursor_percentage_witness :
    (get_current_question exQdb c10st "c10" "t2").1.success = true := by
  have h := C10_cursor_percentage exQdb c10st "c10" "t2" c10session exQ1
    (by decide) (by decide) (by decide) (by decide)
  exact h.1.1

theorem submit_answer_effect (qdb : String → Option Question) (f n : String)
    (st : SessionMap) (sid qid a : String) (t : Nat) (q : Question)
    (hq : resolveQuestion qdb st sid qid = some q) :
    (submit_answer qdb f n st sid qid a t).1 =
      { success := true, is_correct := check_answer q.correct_answer a,
        correct_answer := some q.correct_answer, explanation := firstSolution q,
        response_id := some (submitResponseId
          ((dget st sid).getD (emptySubmitSession sid)) qid f),
        fallback := true } ∧
    (submit_answer qdb f n st sid qid a t).2 =
      dset (ensureSession st sid) sid
        (updSession ((dget st sid).getD (emptySubmitSession sid)) qid
          (mkResp sid qid a (check_answer q.correct_answer a) t n
            (submitResponseId ((dget st sid).getD (emptySubmitSession sid)) qid f))
          n) := by
  constructor
  · simp [submit_answer, hq, recordSubmission, dget_ensureSession]
  · simp [submit_answer, hq, recordSubmission, dget_ensureSession]

/-- C1: submitting twice for the same `(session_id, question_id)` pair keeps exactly
one response record for the pair, with the second call succeeding and returning the
first call's response id; the stored record carries the latest `user_answer`,
`is_correct`, `time_taken` and `response_time`; and after each submission the session
counters equal recounts over the full response set (`questions_answered` is its size,
`questions_correct`/`questions_incorrect` are the counts of correct/incorrect
entries), never increments. -/
theorem C1_resubmission_idempotent (qdb : String → Option Question)
    (f1 f2 n1 n2 : String) (st : SessionMap) (sid qid a1 a2 : String) (t1 t2 : Nat)
    (hnodup : ∀ s0, dget st sid = some s0 → (dkeys s0.responses).Nodup)
    (h1 : (submit_answer qdb f1 n1 st sid qid a1 t1).1.success = true) :
    (submit_answer qdb f2 n2 (submit_answer qdb f1 n1 st sid qid a1 t1).2
        sid qid a2 t2).1.success = true ∧
    (submit_answer qdb f2 n2 (submit_answer qdb f1 n1 st sid qid a1 t1).2
        sid qid a2 t2).1.response_id =
      (submit_answer qdb f1 n1 st sid qid a1 t1).1.response_id ∧
    (∃ q rid s2,
      resolveQuestion qdb st sid qid = some q ∧
      (submit_answer qdb f1 n1 st sid qid a1 t1).1.response_id = some rid ∧
      dget (submit_answer qdb f2 n2 (submit_answer qdb f1 n1 st sid qid a1 t1).2
        sid qid a2 t2).2 sid = some s2 ∧
      countKey s2.responses qid = 1 ∧
      dget s2.responses qid =
        some (mkResp sid qid a2 (check_answer q.correct_answer a2) t2 n2 rid) ∧
      s2.questions_answered = s2.responses.length ∧
      s2.questions_correct = countCorrect s2.responses ∧
      s2.questions_incorrect = countIncorrect s2.responses) ∧
    (∀ s1, dget (submit_answer qdb f1 n1 st sid qid a1 t1).2 sid = some s1 →
      s1.questions_answered = s1.responses.length ∧
      s1.questions_correct = countCorrect s1.responses ∧
      s1.questions_incorrect = countIncorrect s1.responses) := by
  cases hq : resolveQuestion qdb st sid qid with
  | none =>
    exfalso
    simp [submit_answer, hq] at h1
  | some q =>
    obtain ⟨hr1, hst1⟩ := submit_answer_effect qdb f1 n1 st sid qid a1 t1 q hq
    have hfind1 : dget (submit_answer qdb f1 n1 st sid qid a1 t1).2 sid =
        some (updSession ((dget st sid).getD (emptySubmitSession sid)) qid
          (mkResp sid qid a1 (check_answer q.correct_answer a1) t1 n1
            (submitResponseId ((dget st sid).getD (emptySubmitSession sid)) qid f1))
          n1) := by
      rw [hst1]
      exact dget_dset_self _ _ _
    have hq2 : resolveQuestion qdb (submit_answer qdb f1 n1 st sid qid a1 t1).2
        sid qid = some q := by
      cases hqdb : qdb qid with
      | some q0 =>
        have hq0 : q0 = q := by simpa [resolveQuestion, hqdb] using hq
        simp [resolveQuestion, hqdb, hq0]
      | none =>
        cases hg : dget st sid with
        | none => simp [resolveQuestion, hqdb, hg] at hq
        | some sOrig =>
          have hq' : dget sOrig.question_bank qid = some q := by
            simpa [resolveQuestion, hqdb, hg] using hq
          simp only [resolveQuestion, hqdb, hfind1, hg, Option.getD_some]
          simpa [updSession] using hq'
    obtain ⟨hr2, hst2⟩ := submit_answer_effect qdb f2 n2
      (submit_answer qdb f1 n1 st sid qid a1 t1).2 sid qid a2 t2 q hq2
    have hS1 : (dget (submit_answer qdb f1 n1 st sid qid a1 t1).2 sid).getD
        (emptySubmitSession sid) =
        updSession ((dget st sid).getD (emptySubmitSession sid)) qid
          (mkResp sid qid a1 (check_answer q.correct_answer a1) t1 n1
            (submitResponseId ((dget st sid).getD (emptySubmitSession sid)) qid f1))
          n1 := by
      rw [hfind1]
      rfl
    have hrid2 : submitResponseId
        ((dget (submit_answer qdb f1 n1 st sid qid a1 t1).2 sid).getD
          (emptySubmitSession sid)) qid f2 =
        submitResponseId ((dget st sid).getD (emptySubmitSession sid)) qid f1 := by
      rw [hS1]
      simp [submitResponseId, updSession, dget_dset_self, mkResp]
    have hnod0 : (dkeys ((dget st sid).getD (emptySubmitSession sid)).responses).Nodup
        := by
      cases hg : dget st sid with
      | none => simp [emptySubmitSession, dkeys]
      | some sOrig => simpa using hnodup sOrig hg
    have hnod1 : (dkeys (updSession ((dget st sid).getD (emptySubmitSession sid)) qid
        (mkResp sid qid a1 (check_answer q.correct_answer a1) t1 n1
          (submitResponseId ((dget st sid).getD (emptySubmitSession sid)) qid f1))
        n1).responses).Nodup := by
      simpa [updSession] using dkeys_nodup_dset _ qid _ hnod0
    refine ⟨?_, ?_, ?_, ?_⟩
    · rw [hr2]
    · rw [hr2, hr1]
      simp [hrid2]
    · refine ⟨q, submitResponseId ((dget st sid).getD (emptySubmitSession sid)) qid f1,
        updSession ((dget (submit_answer qdb f1 n1 st sid qid a1 t1).2 sid).getD
          (emptySubmitSession sid)) qid
          (mkResp sid qid a2 (check_answer q.correct_answer a2) t2 n2
            (submitResponseId
              ((dget (submit_answer qdb f1 n1 st sid qid a1 t1).2 sid).getD
                (emptySubmitSession sid)) qid f2)) n2,
        rfl, ?_, ?_, ?_, ?_, ?_, ?_, ?_⟩
      · rw [hr1]
      · rw [hst2]
        exact dget_dset_self _ _ _
      · rw [hS1]
        simp only [updSession]
        exact countKey_dset_self _ qid _ hnod1
      · rw [hrid2, hS1]
        simp [updSession, dget_dset_self]
      · simp [updSession]
      · simp [updSession]
      · simp [updSession]
    · intro s1 hs1
      rw [hfind1] at hs1
      cases hs1
      exact ⟨by simp [updSession], by simp [updSession], by simp [updSession]⟩

/-- Witness for C1: two submissions for the same pair into an empty map, with
different answers and fresh ids, return the same response id and succeed. -/
theorem C1_resubmission_idempotent_witness :
    (submit_answer exQdb "w2" "t2" (submit_answer exQdb "w1" "t1" [] "sw" "q1" "x" 1).2
        "sw" "q1" "a" 2).1.success = true ∧
    (submit_answer exQdb "w2" "t2" (submit_answer exQdb "w1" "t1" [] "sw" "q1" "x" 1).2
        "sw" "q1" "a" 2).1.response_id =
      (submit_answer exQdb "w1" "t1" [] "sw" "q1" "x" 1).1.response_id := by
  have h := C1_resubmission_idempotent exQdb "w1" "w2" "t1" "t2" [] "sw" "q1" "x" "a"
    1 2 (by intro s0 hs0; simp [dget] at hs0) (by decide)
  exact ⟨h.1, h.2.1⟩

end PYQRetrieverService
